import Mathlib

/-!
# Verification of the tinci-mcp rhyme engine and tone classifier

Shallow embedding of `src/tinci_mcp/rhyme_lookup.py` and
`src/canmcp/tone_mapper.py`: the tone tables, tone classifier, syllable
tone extraction, the rhyme dataset / character index, the rhyme query
engine and the tone-pattern analyzer, with theorems checking the spec's
claims about them.

Python `dict`s that are only read through `get` / `in` / `[]` are embedded
as association lists looked up by first key (a Python dict cannot hold a
key twice, so first-key lookup coincides with dict lookup); iteration
order of a dict is its insertion order, which the association list keeps.
Python `int` is embedded as `Int`, and negative-capable slicing
`l[:limit]` as `pySliceTo`.
-/

/-- Lookup in an association list by its first matching key: the meaning of
`m.get(k)` on a Python dict `m` whose keys are unique. -/
def alistFind {α β : Type} [DecidableEq α] : List (α × β) → α → Option β
  | [], _ => none
  | (k, v) :: rest, key => if key = k then some v else alistFind rest key

/-- `m.get(k, dflt)` on a Python dict. -/
def alistGetD {α β : Type} [DecidableEq α] (m : List (α × β)) (key : α) (dflt : β) : β :=
  (alistFind m key).getD dflt

/-- Python `l[:k]`: for `k ≥ 0` the first `k` elements, for `k < 0` all but
the last `|k|` elements (clamped to the empty list). -/
def pySliceTo {α : Type} (l : List α) (k : Int) : List α :=
  if 0 ≤ k then l.take k.toNat else l.take (l.length - (-k).toNat)

/-- The two tonal classification systems (`ToneSystem = Literal["1056", "0243"]`). -/
inductive ToneSystem : Type
  | s1056
  | s0243
deriving DecidableEq, Repr

/-- `TONE_TO_1056` from `canmcp/tone_mapper.py` (scheme A). The table of the
same name that `rhyme_lookup.py` imports from `tinci_mcp/tone_mapper.py` is
not in the source tree; per the spec §4.1 it has these same values. -/
def TONE_TO_1056 : List (Int × String) :=
  [(1, "1"), (2, "1"), (7, "1"), (4, "0"), (3, "5"), (5, "5"), (8, "5"), (6, "6"), (9, "6")]

/-- `TONE_TO_0243` from `canmcp/tone_mapper.py` (scheme B). The spec §4.1
adopts these values as canonical for the variant imported by
`rhyme_lookup.py` as well. -/
def TONE_TO_0243 : List (Int × String) :=
  [(1, "3"), (2, "3"), (7, "3"), (4, "0"), (3, "2"), (5, "2"), (8, "2"), (6, "4"), (9, "4")]

/-- `map_tone` from `canmcp/tone_mapper.py`: `mapping.get(tone, "?")`. -/
def map_tone (tone : Int) (system : ToneSystem) : String :=
  let mapping := match system with
    | .s1056 => TONE_TO_1056
    | .s0243 => TONE_TO_0243
  alistGetD mapping tone "?"

/-- `get_tone_group` from `rhyme_lookup.py`: same table dispatch and
`mapping.get(tone, "?")` (the tables it imports are modelled above). -/
def get_tone_group (tone : Int) (system : ToneSystem) : String :=
  let mapping := match system with
    | .s1056 => TONE_TO_1056
    | .s0243 => TONE_TO_0243
  alistGetD mapping tone "?"

/-- The first codepoint of each aligned run of ten Unicode decimal digits
(category Nd, from the CPython 3.11 `unicodedata` tables): exactly the single
characters `int` converts, each to its offset within its run. -/
def pyDecimalRangeStarts : List Nat :=
  [0x30, 0x660, 0x6F0, 0x7C0, 0x966, 0x9E6, 0xA66, 0xAE6,
   0xB66, 0xBE6, 0xC66, 0xCE6, 0xD66, 0xDE6, 0xE50, 0xED0,
   0xF20, 0x1040, 0x1090, 0x17E0, 0x1810, 0x1946, 0x19D0, 0x1A80,
   0x1A90, 0x1B50, 0x1BB0, 0x1C40, 0x1C50, 0xA620, 0xA8D0, 0xA900,
   0xA9D0, 0xA9F0, 0xAA50, 0xABF0, 0xFF10, 0x104A0, 0x10D30, 0x11066,
   0x110F0, 0x11136, 0x111D0, 0x112F0, 0x11450, 0x114D0, 0x11650, 0x116C0,
   0x11730, 0x118E0, 0x11950, 0x11C50, 0x11D50, 0x11DA0, 0x16A60, 0x16AC0,
   0x16B50, 0x1D7CE, 0x1D7D8, 0x1D7E2, 0x1D7EC, 0x1D7F6, 0x1E140, 0x1E2F0,
   0x1E950, 0x1FBF0]

/-- The codepoints for which `str.isdigit` is true although they are not
decimal digits (superscripts such as ², circled digits, …; from CPython
3.11’s `unicodedata`): `int` raises ValueError on every one of them. -/
def pyDigitNonDecimal : List Nat :=
  [0xB2, 0xB3, 0xB9, 0x1369, 0x136A, 0x136B, 0x136C, 0x136D,
   0x136E, 0x136F, 0x1370, 0x1371, 0x19DA, 0x2070, 0x2074, 0x2075,
   0x2076, 0x2077, 0x2078, 0x2079, 0x2080, 0x2081, 0x2082, 0x2083,
   0x2084, 0x2085, 0x2086, 0x2087, 0x2088, 0x2089, 0x2460, 0x2461,
   0x2462, 0x2463, 0x2464, 0x2465, 0x2466, 0x2467, 0x2468, 0x2474,
   0x2475, 0x2476, 0x2477, 0x2478, 0x2479, 0x247A, 0x247B, 0x247C,
   0x2488, 0x2489, 0x248A, 0x248B, 0x248C, 0x248D, 0x248E, 0x248F,
   0x2490, 0x24EA, 0x24F5, 0x24F6, 0x24F7, 0x24F8, 0x24F9, 0x24FA,
   0x24FB, 0x24FC, 0x24FD, 0x24FF, 0x2776, 0x2777, 0x2778, 0x2779,
   0x277A, 0x277B, 0x277C, 0x277D, 0x277E, 0x2780, 0x2781, 0x2782,
   0x2783, 0x2784, 0x2785, 0x2786, 0x2787, 0x2788, 0x278A, 0x278B,
   0x278C, 0x278D, 0x278E, 0x278F, 0x2790, 0x2791, 0x2792, 0x10A40,
   0x10A41, 0x10A42, 0x10A43, 0x10E60, 0x10E61, 0x10E62, 0x10E63, 0x10E64,
   0x10E65, 0x10E66, 0x10E67, 0x10E68, 0x11052, 0x11053, 0x11054, 0x11055,
   0x11056, 0x11057, 0x11058, 0x11059, 0x1105A, 0x1F100, 0x1F101, 0x1F102,
   0x1F103, 0x1F104, 0x1F105, 0x1F106, 0x1F107, 0x1F108, 0x1F109, 0x1F10A]

/-- `int(c)` on a one-character string: the decimal value of a Unicode
decimal digit, a ValueError for every other character. -/
def pyIntChar (c : Char) : Except String Int :=
  match pyDecimalRangeStarts.find? fun s => decide (s ≤ c.toNat ∧ c.toNat < s + 10) with
  | some s => .ok ((c.toNat : Int) - (s : Int))
  | none => .error "ValueError"

/-- `c.isdigit()` on a one-character string: true on decimal digits and on
the digit-but-not-decimal codepoints. -/
def pyIsDigit (c : Char) : Bool :=
  (pyDecimalRangeStarts.find? fun s => decide (s ≤ c.toNat ∧ c.toNat < s + 10)).isSome
    || pyDigitNonDecimal.contains c.toNat

/-- `extract_tone_from_jyutping` from `canmcp/tone_mapper.py`, under CPython
string semantics: the trailing character converted by `int` when when `isdigit` holds
of it and the value is in 1–9; `.ok none` ("no tone") for the empty string,
a non-digit ending, or a digit value outside 1–9; and the ValueError that
`int(last_char)` raises on a digit that is not a decimal digit (such as
²) surfaces as `.error`, uncaught in the source. -/
def extract_tone_from_jyutping (jyutping : String) : Except String (Option Int) :=
  match jyutping.data.getLast? with
  | none => .ok none
  | some last_char =>
    if pyIsDigit last_char then
      match pyIntChar last_char with
      | .error e => .error e
      | .ok tone => if 1 ≤ tone ∧ tone ≤ 9 then .ok (some tone) else .ok none
    else .ok none

/-- One element of a final's `"characters"` list in `rhymes.json`:
`{char, jyutping, tone}`. -/
structure Entry : Type where
  char : String
  jyutping : String
  tone : Int
deriving DecidableEq, Repr

/-- The rhyme dataset (`RhymeData`): a finals-keyed dict in dataset order.
The JSON wrapper object `{"characters": [...]}` under each final is
embedded as the character list itself, so `data.get("characters", [])`
is the association list's value. -/
abbrev RhymeData : Type := List (String × List Entry)

/-- A character's reading as stored in the character index:
`(final, jyutping, tone)`. -/
abbrev Reading : Type := String × String × Int

/-- `build_character_index` from `rhyme_lookup.py`, read at one character:
iterating finals in dataset order and entries in order, every entry whose
`char` is `c` appends `(final, jyutping, tone)` to `char_index[c]`, so
`char_index[c]` is exactly this ordered selection (the dict holds `c` iff
the list is non-empty, since each key insertion is followed by an append). -/
def build_character_index (d : RhymeData) (c : String) : List Reading :=
  (d.flatMap fun p => p.2.map fun e => (e.char, (p.1, e.jyutping, e.tone))).filterMap
    fun q => if q.1 = c then some q.2 else none

/-- `get_character_info` from `rhyme_lookup.py`: `char_index.get(char)`,
`none` exactly when the dict has no key `char`, i.e. when no entry of the
dataset has this character. -/
def get_character_info (d : RhymeData) (c : String) : Option (List Reading) :=
  if build_character_index d c = [] then none else some (build_character_index d c)

/-- `tone_filter: Literal["all", "same", "group"]`. -/
inductive ToneFilter : Type
  | all
  | same
  | group
deriving DecidableEq, Repr

/-- One element of the `rhymes` list returned by `find_rhyming_characters`. -/
structure RhymeEntry : Type where
  character : String
  jyutping : String
  tone : Int
  tone_group : String
deriving DecidableEq, Repr

/-- The `input` object echoed by `find_rhyming_characters`. -/
structure RhymeInput : Type where
  character : String
  jyutping : String
  tone : Int
  tone_group : String
deriving DecidableEq, Repr

/-- The dictionary returned by `find_rhyming_characters`: the error shape
`{error, input: {character}, rhymes: []}` (its `rhymes` is literally the
empty list, read back by `RhymeResult.rhymes`) or the full result shape. -/
inductive RhymeResult : Type
  | err (error : String) (input_character : String)
  | ok (input : RhymeInput) (final : String) (system : ToneSystem)
      (tone_filter : ToneFilter) (rhymes : List RhymeEntry) (count : Nat)
      (total_count : Nat) (target_tone : Option Int) (target_group : Option String)
deriving DecidableEq, Repr

/-- The `rhymes` field of a result (`[]` in the error shape). -/
def RhymeResult.rhymes : RhymeResult → List RhymeEntry
  | .err _ _ => []
  | .ok _ _ _ _ rhymes _ _ _ _ => rhymes

/-- The `count` field of a result (the error shape has none; read as 0). -/
def RhymeResult.count : RhymeResult → Nat
  | .err _ _ => 0
  | .ok _ _ _ _ _ count _ _ _ => count

/-- The `total_count` field of a result (the error shape has none; read as 0). -/
def RhymeResult.total_count : RhymeResult → Nat
  | .err _ _ => 0
  | .ok _ _ _ _ _ _ total_count _ _ => total_count

/-- The filter-keep decision of the loop body in `find_rhyming_characters`
(after the self-exclusion test), with its priority chain
`target_tone > target_group > tone_filter`: each `continue` is `false`. -/
def rhymeKeep (tone : Int) (input_tone_group : String) (tone_filter : ToneFilter)
    (target_tone : Option Int) (target_group : Option String)
    (entry_tone : Int) (entry_tone_group : String) : Bool :=
  match target_tone with
  | some tt => entry_tone = tt
  | none =>
    match target_group with
    | some tg => entry_tone_group = tg
    | none =>
      match tone_filter with
      | .same => entry_tone = tone
      | .group => entry_tone_group = input_tone_group
      | .all => true

/-- The `filtered_rhymes` list built by the loop of `find_rhyming_characters`:
all entries of the input's final (`rhyme_data.get(final, {}).get("characters", [])`),
skipping the input character itself, kept by `rhymeKeep`, each shaped into
`{character, jyutping, tone, tone_group}`. -/
def filteredRhymes (d : RhymeData) (final : String) (character : String) (tone : Int)
    (tone_filter : ToneFilter) (system : ToneSystem)
    (target_tone : Option Int) (target_group : Option String) : List RhymeEntry :=
  let input_tone_group := get_tone_group tone system
  let all_rhymes := alistGetD d final []
  all_rhymes.filterMap fun entry =>
    if entry.char = character then none
    else
      let entry_tone := entry.tone
      let entry_tone_group := get_tone_group entry_tone system
      if rhymeKeep tone input_tone_group tone_filter target_tone target_group
          entry_tone entry_tone_group then
        some { character := entry.char, jyutping := entry.jyutping,
               tone := entry_tone, tone_group := entry_tone_group }
      else none

/-- `find_rhyming_characters` from `rhyme_lookup.py`. -/
def find_rhyming_characters (d : RhymeData) (character : String)
    (tone_filter : ToneFilter) (system : ToneSystem) (limit : Int)
    (target_tone : Option Int) (target_group : Option String) : RhymeResult :=
  match get_character_info d character with
  | none =>
    .err ("Character '" ++ character ++ "' not found in rhyme database") character
  | some [] =>
    .err ("Character '" ++ character ++ "' not found in rhyme database") character
  | some ((final, jyutping, tone) :: _) =>
    let input_tone_group := get_tone_group tone system
    let filtered_rhymes :=
      filteredRhymes d final character tone tone_filter system target_tone target_group
    let total_count := filtered_rhymes.length
    let limited_rhymes := pySliceTo filtered_rhymes limit
    .ok { character := character, jyutping := jyutping, tone := tone,
          tone_group := input_tone_group }
      final system tone_filter limited_rhymes limited_rhymes.length total_count
      target_tone target_group

/-- `get_available_finals` from `rhyme_lookup.py`: `sorted(rhyme_data.keys())`. -/
def get_available_finals (d : RhymeData) : List String :=
  List.insertionSort (· ≤ ·) (d.map Prod.fst)

/-- The dictionary returned by `get_characters_by_final`: the error shape
`{error, available_finals}` or the full result shape. -/
inductive FinalResult : Type
  | err (error : String) (available_finals : List String)
  | ok (final : String) (tone_filter : Option Int) (characters : List Entry)
      (count : Nat) (total_count : Nat)
deriving DecidableEq, Repr

/-- The `filtered` list of `get_characters_by_final`: the final's characters
restricted to `tone_filter`'s tone when one is given. -/
def finalFiltered (all_chars : List Entry) (tone_filter : Option Int) : List Entry :=
  match tone_filter with
  | some t => all_chars.filter fun c => c.tone = t
  | none => all_chars

/-- `get_characters_by_final` from `rhyme_lookup.py`. -/
def get_characters_by_final (d : RhymeData) (final : String)
    (tone_filter : Option Int) (limit : Int) : FinalResult :=
  match alistFind d final with
  | none =>
    .err ("Final '" ++ final ++ "' not found in rhyme database") (get_available_finals d)
  | some all_chars =>
    let filtered := finalFiltered all_chars tone_filter
    .ok final tone_filter (pySliceTo filtered limit) (pySliceTo filtered limit).length
      filtered.length

/-- One record of the `breakdown` list of `analyze_tones`:
`{character, jyutping, tone, mapped}`. -/
structure BreakdownRecord : Type where
  character : String
  jyutping : String
  tone : Option Int
  mapped : Option String
deriving DecidableEq, Repr

/-- The dictionary returned by `analyze_tones`: `{system, pattern, breakdown}`. -/
structure AnalyzeResult : Type where
  system : ToneSystem
  pattern : String
  breakdown : List BreakdownRecord
deriving DecidableEq, Repr

/-- The loop of `analyze_tones`, building `(breakdown, pattern_chars)` in
input order: a tone-bearing pair appends its record and its mapped label, a
toneless pair appends a `{tone: none, mapped: none}` record only, and a
ValueError from `extract_tone_from_jyutping` aborts the whole call (the
source catches nothing). -/
def analyzeLoop (system : ToneSystem) :
    List (String × String) → Except String (List BreakdownRecord × List String)
  | [] => .ok ([], [])
  | (char, jyutping) :: rest =>
    match extract_tone_from_jyutping jyutping with
    | .error e => .error e
    | .ok (some tone) =>
      let mapped := map_tone tone system
      match analyzeLoop system rest with
      | .error e => .error e
      | .ok (bdRest, pcRest) =>
        .ok ({ character := char, jyutping := jyutping, tone := some tone,
               mapped := some mapped } :: bdRest,
             mapped :: pcRest)
    | .ok none =>
      match analyzeLoop system rest with
      | .error e => .error e
      | .ok (bdRest, pcRest) =>
        .ok ({ character := char, jyutping := jyutping, tone := none,
               mapped := none } :: bdRest,
             pcRest)

/-- `analyze_tones` from `canmcp/tone_mapper.py`: `{"system": system,
"pattern": "".join(pattern_chars), "breakdown": breakdown}`, or the
propagated ValueError. -/
def analyze_tones (jyutping_pairs : List (String × String))
    (system : ToneSystem) : Except String AnalyzeResult :=
  match analyzeLoop system jyutping_pairs with
  | .error e => .error e
  | .ok result =>
    .ok { system := system, pattern := String.join result.2, breakdown := result.1 }

/-- A one-final concrete dataset (the spec §8 scenario: final `"oi"` holding
愛(oi3), 外(ngoi6), 改(goi2)) used by the concrete witnesses below. -/
def testData : RhymeData :=
  [("oi", [{ char := "愛", jyutping := "oi3", tone := 3 },
           { char := "外", jyutping := "ngoi6", tone := 6 },
           { char := "改", jyutping := "goi2", tone := 2 }])]

/-! ## Helper lemmas -/

theorem alistFind_eq_none {α β : Type} [DecidableEq α] (m : List (α × β)) (key : α)
    (h : key ∉ m.map Prod.fst) : alistFind m key = none := by
  induction m with
  | nil => rfl
  | cons p rest ih =>
    simp only [List.map_cons, List.mem_cons] at h
    push_neg at h
    simp only [alistFind, if_neg h.1]
    exact ih h.2

theorem pySliceTo_nonneg {α : Type} (l : List α) (k : Int) (h : 0 ≤ k) :
    pySliceTo l k = l.take k.toNat := by
  simp only [pySliceTo, if_pos h]

theorem pySliceTo_neg {α : Type} (l : List α) (k : Int) (h : k < 0) :
    pySliceTo l k = l.take (l.length - k.natAbs) := by
  rw [pySliceTo, if_neg (by omega)]
  congr 1
  omega

theorem pySliceTo_subset {α : Type} (l : List α) (k : Int) : pySliceTo l k ⊆ l := by
  unfold pySliceTo
  split
  · exact List.take_subset _ _
  · exact List.take_subset _ _

/-- The record an entry of the dataset is shaped into by the loop of
`find_rhyming_characters`. -/
def toRhymeEntry (system : ToneSystem) (e : Entry) : RhymeEntry :=
  { character := e.char, jyutping := e.jyutping, tone := e.tone,
    tone_group := get_tone_group e.tone system }

theorem filteredRhymes_eq (d : RhymeData) (final character : String) (tone : Int)
    (tone_filter : ToneFilter) (system : ToneSystem)
    (target_tone : Option Int) (target_group : Option String) :
    filteredRhymes d final character tone tone_filter system target_tone target_group
      = ((alistGetD d final []).filter fun e =>
          !decide (e.char = character) &&
            rhymeKeep tone (get_tone_group tone system) tone_filter target_tone
              target_group e.tone (get_tone_group e.tone system)).map
          (toRhymeEntry system) := by
  unfold filteredRhymes
  induction alistGetD d final [] with
  | nil => rfl
  | cons e rest ih =>
    by_cases h1 : e.char = character
    · simpa [List.filterMap_cons, List.filter_cons, h1] using ih
    · by_cases h2 : rhymeKeep tone (get_tone_group tone system) tone_filter target_tone
          target_group e.tone (get_tone_group e.tone system)
      · simpa [List.filterMap_cons, List.filter_cons, h1, h2, toRhymeEntry] using ih
      · simpa [List.filterMap_cons, List.filter_cons, h1, h2] using ih

theorem mem_filteredRhymes_char_ne (d : RhymeData) (final character : String) (tone : Int)
    (tone_filter : ToneFilter) (system : ToneSystem)
    (target_tone : Option Int) (target_group : Option String) (r : RhymeEntry)
    (h : r ∈ filteredRhymes d final character tone tone_filter system
      target_tone target_group) : r.character ≠ character := by
  rw [filteredRhymes_eq] at h
  simp only [List.mem_map, List.mem_filter, Bool.and_eq_true, Bool.not_eq_true',
    decide_eq_false_iff_not] at h
  obtain ⟨e, ⟨_, hne, _⟩, rfl⟩ := h
  exact hne

/-! ## Claim theorems -/

/-- C2: the tone classifier `map_tone` (and `get_tone_group`) is total: under
scheme "1056" it sends tones 1,2,7 to "1", tone 4 to "0", tones 3,5,8 to "5"
and tones 6,9 to "6"; under scheme "0243" it sends 1,2,7 to "3", 4 to "0",
3,5,8 to "2" and 6,9 to "4"; and every integer tone outside 1–9 yields the
sentinel "?" rather than failing. -/
theorem map_tone_total_table :
    (map_tone 1 .s1056 = "1" ∧ map_tone 2 .s1056 = "1" ∧ map_tone 7 .s1056 = "1"
      ∧ map_tone 4 .s1056 = "0"
      ∧ map_tone 3 .s1056 = "5" ∧ map_tone 5 .s1056 = "5" ∧ map_tone 8 .s1056 = "5"
      ∧ map_tone 6 .s1056 = "6" ∧ map_tone 9 .s1056 = "6")
    ∧ (map_tone 1 .s0243 = "3" ∧ map_tone 2 .s0243 = "3" ∧ map_tone 7 .s0243 = "3"
      ∧ map_tone 4 .s0243 = "0"
      ∧ map_tone 3 .s0243 = "2" ∧ map_tone 5 .s0243 = "2" ∧ map_tone 8 .s0243 = "2"
      ∧ map_tone 6 .s0243 = "4" ∧ map_tone 9 .s0243 = "4")
    ∧ (∀ (t : Int) (s : ToneSystem), get_tone_group t s = map_tone t s)
    ∧ (∀ t : Int, ¬ (1 ≤ t ∧ t ≤ 9) →
        map_tone t .s1056 = "?" ∧ map_tone t .s0243 = "?") := by
  refine ⟨by decide, by decide, fun t s => by cases s <;> rfl, fun t ht => ?_⟩
  constructor <;>
    · simp only [map_tone, alistGetD, alistFind, TONE_TO_1056, TONE_TO_0243]
      split_ifs <;> first | rfl | omega

/-- C8: the claim says `extract_tone_from_jyutping` returns the trailing
character as an integer exactly when it is a decimal digit in 1–9 and "no
tone" (None) otherwise. The code does so on decimal digits ("jat1" yields 1,
"nei5" yields 5, fullwidth "jat１" yields 1), on the empty string, on a
non-digit ending and on a trailing 0 — but on a trailing digit that is not
a decimal digit, where `isdigit()` is true and `int()` raises, it raises an
uncaught ValueError instead of returning None, contradicting its own
docstring ("The tone number (1-9) or None if not found"). -/
theorem extract_tone_value_error :
    extract_tone_from_jyutping "jat²" = .error "ValueError"
    ∧ extract_tone_from_jyutping "jat1" = .ok (some 1)
    ∧ extract_tone_from_jyutping "nei5" = .ok (some 5)
    ∧ extract_tone_from_jyutping "jat１" = .ok (some 1)
    ∧ extract_tone_from_jyutping "" = .ok none
    ∧ extract_tone_from_jyutping "abc" = .ok none
    ∧ extract_tone_from_jyutping "jat0" = .ok none :=
  ⟨rfl, rfl, rfl, rfl, rfl, rfl, rfl⟩

/-- C7: the claim says `analyze_tones` yields one breakdown record per input
pair, tone-bearing pairs contributing their label to `pattern` and toneless
pairs a `{tone: none, mapped: none}` record and nothing to `pattern`. The
code does so on tone-bearing and toneless pairs — [(你,nei5),(好,hou2)]
under scheme "1056" gives pattern "51" with one record per pair, and a
non-tonal pair gets its none/none record — but on a pair whose syllable ends
in a digit that is not a decimal digit it propagates the ValueError from
`extract_tone_from_jyutping` and produces no breakdown at all. -/
theorem analyze_tones_value_error :
    analyze_tones [("好", "hou²")] .s1056 = .error "ValueError"
    ∧ analyze_tones [("你", "nei5"), ("好", "hou2")] .s1056
        = .ok { system := .s1056, pattern := "51",
                breakdown :=
                  [{ character := "你", jyutping := "nei5", tone := some 5,
                     mapped := some "5" },
                   { character := "好", jyutping := "hou2", tone := some 2,
                     mapped := some "1" }] }
    ∧ analyze_tones [("你", "nei5"), ("！", "！")] .s1056
        = .ok { system := .s1056, pattern := "5",
                breakdown :=
                  [{ character := "你", jyutping := "nei5", tone := some 5,
                     mapped := some "5" },
                   { character := "！", jyutping := "！", tone := none,
                     mapped := none }] } :=
  ⟨rfl, rfl, rfl⟩

/-- C9: the character index maps a character to a non-empty reading list iff
the character appears in some final entry of the dataset (the index never
holds an empty list), and looking up a character outside the dataset yields
the normal `none` outcome rather than an error. -/
theorem character_index_nonempty_iff (d : RhymeData) (c : String) :
    (build_character_index d c ≠ [] ↔ ∃ p ∈ d, ∃ e ∈ p.2, e.char = c)
    ∧ (get_character_info d c = none ↔ ¬ ∃ p ∈ d, ∃ e ∈ p.2, e.char = c)
    ∧ (∀ l, get_character_info d c = some l → l ≠ []) := by
  have key : build_character_index d c ≠ [] ↔ ∃ p ∈ d, ∃ e ∈ p.2, e.char = c := by
    rw [Ne, build_character_index, List.filterMap_eq_nil_iff]
    simp only [List.mem_flatMap, List.mem_map, not_forall]
    constructor
    · rintro ⟨q, ⟨p, hp, e, he, rfl⟩, hne⟩
      refine ⟨p, hp, e, he, ?_⟩
      by_contra hc
      exact hne (if_neg hc)
    · rintro ⟨p, hp, e, he, hc⟩
      exact ⟨(e.char, (p.1, e.jyutping, e.tone)), ⟨p, hp, e, he, rfl⟩,
        by rw [if_pos hc]; exact Option.some_ne_none _⟩
  refine ⟨key, ?_, ?_⟩
  · rw [← key]
    unfold get_character_info
    constructor
    · intro h
      by_contra hne
      rw [if_neg (by simpa using hne)] at h
      cases h
    · intro h
      rw [not_not] at h
      rw [if_pos h]
  · intro l hl
    unfold get_character_info at hl
    split at hl
    · cases hl
    · next hne => obtain rfl : build_character_index d c = l := by injection hl
                  exact hne

/-- C1: the tone-filter policy of `find_rhyming_characters` is a strict
priority chain: with `target_tone` supplied the filtered set is exactly the
sibling entries (self excluded) whose tone equals `target_tone`, whatever
`tone_filter` and `target_group` are; else with `target_group` supplied,
exactly those whose classified group equals `target_group`, whatever
`tone_filter` is; else the mode dispatches — "same" keeps the input's
first-reading tone, "group" keeps the input's group, "all" keeps everything —
and the returned `rhymes`/`total_count` come from that filtered set. -/
theorem find_rhymes_filter_priority (d : RhymeData) (final c : String) (t : Int)
    (mode : ToneFilter) (sys : ToneSystem) (tt : Int) (tg : Option String) (g : String) :
    (filteredRhymes d final c t mode sys (some tt) tg
      = ((alistGetD d final []).filter fun e => ¬ e.char = c ∧ e.tone = tt).map
          (toRhymeEntry sys))
    ∧ (filteredRhymes d final c t mode sys none (some g)
      = ((alistGetD d final []).filter fun e =>
          ¬ e.char = c ∧ get_tone_group e.tone sys = g).map (toRhymeEntry sys))
    ∧ (filteredRhymes d final c t .same sys none none
      = ((alistGetD d final []).filter fun e => ¬ e.char = c ∧ e.tone = t).map
          (toRhymeEntry sys))
    ∧ (filteredRhymes d final c t .group sys none none
      = ((alistGetD d final []).filter fun e =>
          ¬ e.char = c ∧ get_tone_group e.tone sys = get_tone_group t sys).map
          (toRhymeEntry sys))
    ∧ (filteredRhymes d final c t .all sys none none
      = ((alistGetD d final []).filter fun e => ¬ e.char = c).map (toRhymeEntry sys))
    ∧ (∀ (lim : Int) (f j : String) (rest : List Reading),
        get_character_info d c = some ((f, j, t) :: rest) →
        (find_rhyming_characters d c mode sys lim (some tt) tg).rhymes
            = pySliceTo (((alistGetD d f []).filter fun e =>
                ¬ e.char = c ∧ e.tone = tt).map (toRhymeEntry sys)) lim
          ∧ (find_rhyming_characters d c mode sys lim (some tt) tg).total_count
            = (((alistGetD d f []).filter fun e =>
                ¬ e.char = c ∧ e.tone = tt).map (toRhymeEntry sys)).length) := by
  have hsome : filteredRhymes d final c t mode sys (some tt) tg
      = ((alistGetD d final []).filter fun e => ¬ e.char = c ∧ e.tone = tt).map
          (toRhymeEntry sys) := by
    rw [filteredRhymes_eq]
    congr 1
    refine List.filter_congr fun e _ => ?_
    simp [rhymeKeep, Bool.decide_and]
  refine ⟨hsome, ?_, ?_, ?_, ?_, ?_⟩
  · rw [filteredRhymes_eq]
    congr 1
    refine List.filter_congr fun e _ => ?_
    simp [rhymeKeep, Bool.decide_and]
  · rw [filteredRhymes_eq]
    congr 1
    refine List.filter_congr fun e _ => ?_
    simp [rhymeKeep, Bool.decide_and]
  · rw [filteredRhymes_eq]
    congr 1
    refine List.filter_congr fun e _ => ?_
    simp [rhymeKeep, Bool.decide_and]
  · rw [filteredRhymes_eq]
    congr 1
    refine List.filter_congr fun e _ => ?_
    simp [rhymeKeep, Bool.decide_and]
  · intro lim f j rest hfound
    have hs : filteredRhymes d f c t mode sys (some tt) tg
        = ((alistGetD d f []).filter fun e => ¬ e.char = c ∧ e.tone = tt).map
            (toRhymeEntry sys) := by
      rw [filteredRhymes_eq]
      congr 1
      refine List.filter_congr fun e _ => ?_
      simp [rhymeKeep, Bool.decide_and]
    unfold find_rhyming_characters
    rw [hfound]
    exact ⟨by simp [RhymeResult.rhymes, hs], by simp [RhymeResult.total_count, hs]⟩

/-- C5: for every input character absent from the character index,
`find_rhyming_characters` returns normally the error-shaped result holding
an error message, the queried character, and an empty `rhymes` list. -/
theorem find_rhymes_not_found (d : RhymeData) (c : String) (mode : ToneFilter)
    (sys : ToneSystem) (lim : Int) (tt : Option Int) (tg : Option String)
    (habsent : get_character_info d c = none) :
    find_rhyming_characters d c mode sys lim tt tg
      = .err ("Character '" ++ c ++ "' not found in rhyme database") c
    ∧ (find_rhyming_characters d c mode sys lim tt tg).rhymes = [] := by
  unfold find_rhyming_characters
  rw [habsent]
  exact ⟨rfl, rfl⟩

/-- Concrete instance of `find_rhymes_not_found`: the character 貓 is not in
`testData`, so the call reports the error shape with no rhymes. -/
theorem find_rhymes_not_found_witness :
    find_rhyming_characters testData "貓" .all .s0243 50 none none
      = .err ("Character '貓' not found in rhyme database") "貓"
    ∧ (find_rhyming_characters testData "貓" .all .s0243 50 none none).rhymes = [] :=
  find_rhymes_not_found testData "貓" .all .s0243 50 none none (by decide)

/-- C4: `find_rhyming_characters` never returns the queried character itself:
every entry of the returned `rhymes` list has a `character` field different
from the input character, for every dataset, mode, scheme, limit and target. -/
theorem find_rhymes_self_excluded (d : RhymeData) (c : String) (mode : ToneFilter)
    (sys : ToneSystem) (lim : Int) (tt : Option Int) (tg : Option String)
    (r : RhymeEntry)
    (hmem : r ∈ (find_rhyming_characters d c mode sys lim tt tg).rhymes) :
    r.character ≠ c := by
  unfold find_rhyming_characters at hmem
  split at hmem
  · cases hmem
  · cases hmem
  · next f j t rest _ =>
    simp only [RhymeResult.rhymes] at hmem
    exact mem_filteredRhymes_char_ne d f c t mode sys tt tg r (pySliceTo_subset _ _ hmem)

/-- Concrete instance of `find_rhymes_self_excluded`: the entry for 外
returned by a query on 愛 over `testData` does not carry the character 愛. -/
theorem find_rhymes_self_excluded_witness :
    ({ character := "外", jyutping := "ngoi6", tone := 6,
       tone_group := "4" } : RhymeEntry).character ≠ "愛" :=
  find_rhymes_self_excluded testData "愛" .all .s0243 50 none none
    { character := "外", jyutping := "ngoi6", tone := 6, tone_group := "4" } (by decide)

/-- Counterexample to C3 as stated: with `limit = -1 ≤ 0` the call on 愛 over
`testData` returns one rhyme and `count = 1`, not an empty `rhymes` list with
`count = 0` (Python's negative slice keeps all but the last entry). -/
theorem find_rhymes_neg_limit_cex :
    (-1 : Int) ≤ 0
    ∧ (find_rhyming_characters testData "愛" .all .s0243 (-1) none none).rhymes
        = [{ character := "外", jyutping := "ngoi6", tone := 6, tone_group := "4" }]
    ∧ (find_rhyming_characters testData "愛" .all .s0243 (-1) none none).count = 1
    ∧ (find_rhyming_characters testData "愛" .all .s0243 (-1) none none).total_count
        = 2 := by
  decide

/-- C3 (amended): for a character present in the index, `total_count` is the
size of the full filtered sibling set, `rhymes` is the Python slice
`filtered[:limit]` (stable order) and `count` its length; for `limit ≥ 0` the
slice is the first `limit` entries with `count = min(total_count, limit)`, and
`limit = 0` yields empty `rhymes` with `count = 0` while `total_count` still
reflects the true filtered size; a strictly negative limit instead drops the
last `|limit|` entries. -/
theorem find_rhymes_truncation (d : RhymeData) (c : String) (mode : ToneFilter)
    (sys : ToneSystem) (lim : Int) (tt : Option Int) (tg : Option String)
    (f j : String) (t : Int) (rest : List Reading)
    (hfound : get_character_info d c = some ((f, j, t) :: rest)) :
    (find_rhyming_characters d c mode sys lim tt tg).total_count
      = (filteredRhymes d f c t mode sys tt tg).length
    ∧ (find_rhyming_characters d c mode sys lim tt tg).rhymes
      = pySliceTo (filteredRhymes d f c t mode sys tt tg) lim
    ∧ (find_rhyming_characters d c mode sys lim tt tg).count
      = (find_rhyming_characters d c mode sys lim tt tg).rhymes.length
    ∧ (0 ≤ lim →
        (find_rhyming_characters d c mode sys lim tt tg).rhymes
          = (filteredRhymes d f c t mode sys tt tg).take lim.toNat
        ∧ (find_rhyming_characters d c mode sys lim tt tg).count
          = min (filteredRhymes d f c t mode sys tt tg).length lim.toNat)
    ∧ (lim = 0 →
        (find_rhyming_characters d c mode sys lim tt tg).rhymes = []
        ∧ (find_rhyming_characters d c mode sys lim tt tg).count = 0) := by
  unfold find_rhyming_characters
  rw [hfound]
  simp only [RhymeResult.total_count, RhymeResult.rhymes, RhymeResult.count]
  refine ⟨trivial, trivial, trivial, fun hge => ?_, fun h0 => ?_⟩
  · rw [pySliceTo_nonneg _ _ hge]
    exact ⟨rfl, by rw [List.length_take, Nat.min_comm]⟩
  · subst h0
    rw [pySliceTo_nonneg _ _ le_rfl]
    exact ⟨by rw [Int.toNat_zero, List.take_zero], by rw [Int.toNat_zero, List.take_zero]; rfl⟩

/-- Concrete instance of `find_rhymes_truncation` at `limit = 1` on
`testData`: two siblings pass the filter, one is returned. -/
theorem find_rhymes_truncation_witness :
    (find_rhyming_characters testData "愛" .all .s0243 1 none none).total_count
      = (filteredRhymes testData "oi" "愛" 3 .all .s0243 none none).length
    ∧ (find_rhyming_characters testData "愛" .all .s0243 1 none none).rhymes
      = pySliceTo (filteredRhymes testData "oi" "愛" 3 .all .s0243 none none) 1
    ∧ (find_rhyming_characters testData "愛" .all .s0243 1 none none).count
      = (find_rhyming_characters testData "愛" .all .s0243 1 none none).rhymes.length
    ∧ ((0 : Int) ≤ 1 →
        (find_rhyming_characters testData "愛" .all .s0243 1 none none).rhymes
          = (filteredRhymes testData "oi" "愛" 3 .all .s0243 none none).take (1 : Int).toNat
        ∧ (find_rhyming_characters testData "愛" .all .s0243 1 none none).count
          = min (filteredRhymes testData "oi" "愛" 3 .all .s0243 none none).length
              (1 : Int).toNat)
    ∧ ((1 : Int) = 0 →
        (find_rhyming_characters testData "愛" .all .s0243 1 none none).rhymes = []
        ∧ (find_rhyming_characters testData "愛" .all .s0243 1 none none).count = 0) :=
  find_rhymes_truncation testData "愛" .all .s0243 1 none none "oi" "oi3" 3 [] (by decide)

/-- C10: for a strictly negative `limit`, both `find_rhyming_characters` and
`get_characters_by_final` return the filtered list with its last `|limit|`
entries removed (Python negative-slice semantics) rather than an empty list,
`count` being the length of that shortened list and `total_count` the full
filtered size. -/
theorem neg_limit_python_slice (d : RhymeData) (c : String) (mode : ToneFilter)
    (sys : ToneSystem) (lim : Int) (tt : Option Int) (tg : Option String)
    (f j : String) (t : Int) (rest : List Reading)
    (hneg : lim < 0)
    (hfound : get_character_info d c = some ((f, j, t) :: rest)) :
    ((find_rhyming_characters d c mode sys lim tt tg).rhymes
      = (filteredRhymes d f c t mode sys tt tg).take
          ((filteredRhymes d f c t mode sys tt tg).length - lim.natAbs))
    ∧ (find_rhyming_characters d c mode sys lim tt tg).count
      = (filteredRhymes d f c t mode sys tt tg).length - lim.natAbs
    ∧ (find_rhyming_characters d c mode sys lim tt tg).total_count
      = (filteredRhymes d f c t mode sys tt tg).length
    ∧ (∀ (final2 : String) (chars : List Entry) (tf : Option Int),
        alistFind d final2 = some chars →
        get_characters_by_final d final2 tf lim
          = .ok final2 tf
              ((finalFiltered chars tf).take ((finalFiltered chars tf).length - lim.natAbs))
              ((finalFiltered chars tf).length - lim.natAbs)
              (finalFiltered chars tf).length) := by
  have hlen : ∀ {α : Type} (l : List α),
      (l.take (l.length - lim.natAbs)).length = l.length - lim.natAbs := by
    intro α l
    rw [List.length_take]
    omega
  refine ⟨?_, ?_, ?_, ?_⟩
  · unfold find_rhyming_characters
    rw [hfound]
    simp only [RhymeResult.rhymes]
    exact pySliceTo_neg _ _ hneg
  · unfold find_rhyming_characters
    rw [hfound]
    simp only [RhymeResult.count]
    rw [pySliceTo_neg _ _ hneg, hlen]
  · unfold find_rhyming_characters
    rw [hfound]
    simp only [RhymeResult.total_count]
  · intro final2 chars tf hch
    have hok : get_characters_by_final d final2 tf lim
        = .ok final2 tf (pySliceTo (finalFiltered chars tf) lim)
            (pySliceTo (finalFiltered chars tf) lim).length
            (finalFiltered chars tf).length := by
      unfold get_characters_by_final
      rw [hch]
    rw [hok, pySliceTo_neg _ _ hneg, hlen]

/-- Concrete instance of `neg_limit_python_slice` at `limit = -1` on
`testData`: of the two filtered siblings of 愛, the last is dropped. -/
theorem neg_limit_python_slice_witness :
    ((find_rhyming_characters testData "愛" .all .s0243 (-1) none none).rhymes
      = (filteredRhymes testData "oi" "愛" 3 .all .s0243 none none).take
          ((filteredRhymes testData "oi" "愛" 3 .all .s0243 none none).length
            - (-1 : Int).natAbs))
    ∧ (find_rhyming_characters testData "愛" .all .s0243 (-1) none none).count
      = (filteredRhymes testData "oi" "愛" 3 .all .s0243 none none).length
          - (-1 : Int).natAbs
    ∧ (find_rhyming_characters testData "愛" .all .s0243 (-1) none none).total_count
      = (filteredRhymes testData "oi" "愛" 3 .all .s0243 none none).length
    ∧ (∀ (final2 : String) (chars : List Entry) (tf : Option Int),
        alistFind testData final2 = some chars →
        get_characters_by_final testData final2 tf (-1)
          = .ok final2 tf
              ((finalFiltered chars tf).take
                ((finalFiltered chars tf).length - (-1 : Int).natAbs))
              ((finalFiltered chars tf).length - (-1 : Int).natAbs)
              (finalFiltered chars tf).length) :=
  neg_limit_python_slice testData "愛" .all .s0243 (-1) none none "oi" "oi3" 3 []
    (by decide) (by decide)

/-- C6: for every final absent from the dataset (whose keys, being dict keys,
are distinct), `get_characters_by_final` returns normally a result carrying
an error message and `available_finals` equal to the sorted, deduplicated
list of the dataset's finals, non-empty whenever the dataset is non-empty. -/
theorem get_characters_by_final_unknown (d : RhymeData) (final : String)
    (tf : Option Int) (lim : Int)
    (hnd : (d.map Prod.fst).Nodup) (habs : final ∉ d.map Prod.fst) :
    get_characters_by_final d final tf lim
      = .err ("Final '" ++ final ++ "' not found in rhyme database")
          (get_available_finals d)
    ∧ List.Sorted (· ≤ ·) (get_available_finals d)
    ∧ (get_available_finals d).Nodup
    ∧ (∀ s, s ∈ get_available_finals d ↔ s ∈ d.map Prod.fst)
    ∧ (d ≠ [] → get_available_finals d ≠ []) := by
  have hperm : (get_available_finals d).Perm (d.map Prod.fst) :=
    List.perm_insertionSort _ _
  refine ⟨?_, ?_, ?_, fun s => hperm.mem_iff, fun hne hnil => ?_⟩
  · unfold get_characters_by_final
    rw [alistFind_eq_none d final habs]
  · exact List.sorted_insertionSort _ _
  · exact hperm.nodup_iff.mpr hnd
  · rw [hnil] at hperm
    exact hne (List.map_eq_nil_iff.mp hperm.nil_eq.symm)

/-- Concrete instance of `get_characters_by_final_unknown`: the final "zzz"
is not in `testData`, so the error shape carries the full finals list. -/
theorem get_characters_by_final_unknown_witness :
    get_characters_by_final testData "zzz" none 100
      = .err ("Final 'zzz' not found in rhyme database")
          (get_available_finals testData)
    ∧ List.Sorted (· ≤ ·) (get_available_finals testData)
    ∧ (get_available_finals testData).Nodup
    ∧ (∀ s, s ∈ get_available_finals testData ↔ s ∈ testData.map Prod.fst)
    ∧ (testData ≠ [] → get_available_finals testData ≠ []) :=
  get_characters_by_final_unknown testData "zzz" none 100 (by decide) (by decide)
